import Mathlib

/-!
Verification of the pyrail `iRail` client (src/pyrail/irail.py).

The Python source is shallowly embedded: parameter values are `Val`
(Python `None` or a string), argument mappings and the ETag cache are
association lists, wall-clock times are rationals, token counts are
integers (the Python attributes are `int`s), and the transport is a
list of events consumed one per attempt of `do_request`.
-/

namespace PyRail

/-- A Python scalar argument value: `None` or a string. -/
inductive Val where
  | null
  | str (s : String)
deriving DecidableEq, Repr

/-- An argument mapping (Python `dict`), first-key-wins association list. -/
abbrev Params := List (String × Val)

/-- One endpoint's parameter rules, as in `iRail.endpoints`; a missing
`required`/`xor`/`optional` key in the Python dict is the empty list via
`.get(_, [])`. -/
structure EndpointDesc where
  required : List String
  xor : List String
  optional : List String
deriving DecidableEq, Repr

/-- The `iRail.endpoints` table (irail.py lines 39-49). -/
def endpoints : List (String × EndpointDesc) :=
  [("stations", ⟨[], [], []⟩),
   ("liveboard", ⟨[], ["station", "id"], ["date", "time", "arrdep", "alerts"]⟩),
   ("connections", ⟨["from", "to"], [],
      ["date", "time", "timesel", "typeOfTransport", "alerts", "results"]⟩),
   ("vehicle", ⟨["id"], [], ["date", "alerts"]⟩),
   ("composition", ⟨["id"], [], ["data"]⟩),
   ("disturbances", ⟨[], [], ["lineBreakCharacter"]⟩)]

/-- Numeric value of an ASCII digit. -/
def digitVal (c : Char) : Nat := c.toNat - 48

/-- Matches of CPython strptime's `%d` directive at the front of the
character list, in the priority order of its alternation
`3[01]|[12]\d|0[1-9]|[1-9]`; each entry is (day value, chars consumed). -/
def dayAlts (cs : List Char) : List (Nat × Nat) :=
  (match cs with
   | '3' :: b :: _ => if b = '0' ∨ b = '1' then [(30 + digitVal b, 2)] else []
   | _ => []) ++
  (match cs with
   | a :: b :: _ =>
       if (a = '1' ∨ a = '2') ∧ b.isDigit then [(10 * digitVal a + digitVal b, 2)] else []
   | _ => []) ++
  (match cs with
   | '0' :: b :: _ => if b.isDigit ∧ b ≠ '0' then [(digitVal b, 2)] else []
   | _ => []) ++
  (match cs with
   | a :: _ => if a.isDigit ∧ a ≠ '0' then [(digitVal a, 1)] else []
   | _ => [])

/-- Matches of strptime's `%m` directive, alternation `1[0-2]|0[1-9]|[1-9]`. -/
def monthAlts (cs : List Char) : List (Nat × Nat) :=
  (match cs with
   | '1' :: b :: _ => if b = '0' ∨ b = '1' ∨ b = '2' then [(10 + digitVal b, 2)] else []
   | _ => []) ++
  (match cs with
   | '0' :: b :: _ => if b.isDigit ∧ b ≠ '0' then [(digitVal b, 2)] else []
   | _ => []) ++
  (match cs with
   | a :: _ => if a.isDigit ∧ a ≠ '0' then [(digitVal a, 1)] else []
   | _ => [])

/-- strptime's `%y` directive: exactly two digits. -/
def yearMatch (cs : List Char) : Option Nat :=
  match cs with
  | a :: b :: _ => if a.isDigit ∧ b.isDigit then some (10 * digitVal a + digitVal b) else none
  | _ => none

/-- The first (in regex-backtracking priority order) match of the pattern
`(%d)(%m)(%y)` against a prefix of the string, as CPython's `re.match`
finds it: day alternatives outermost, month inner, year innermost.
Returns (day, month, two-digit year, chars consumed). -/
def parseDMY (cs : List Char) : Option (Nat × Nat × Nat × Nat) :=
  (dayAlts cs).findSome? fun dc =>
    (monthAlts (cs.drop dc.2)).findSome? fun mc =>
      (yearMatch (cs.drop (dc.2 + mc.2))).map fun y =>
        (dc.1, mc.1, y, dc.2 + mc.2 + 2)

/-- Gregorian leap-year rule, as used by `datetime`. -/
def isLeap (y : Nat) : Bool := y % 4 == 0 && (y % 100 != 0 || y % 400 == 0)

/-- Days in a month of a given year. -/
def daysInMonth (y m : Nat) : Nat :=
  if m = 2 then (if isLeap y then 29 else 28)
  else if m = 4 ∨ m = 6 ∨ m = 9 ∨ m = 11 then 30
  else 31

/-- strptime's `%y` pivot: two-digit years below 69 are 20xx, others 19xx. -/
def expandYear (y : Nat) : Nat := if y < 69 then 2000 + y else 1900 + y

/-- Whether `datetime.strptime(s, "%d%m%y")` succeeds: the priority-first
regex match must exist, consume the whole string ("unconverted data
remains" otherwise), and denote a valid calendar date. -/
def strptime_ddmmyy (s : String) : Bool :=
  match parseDMY s.toList with
  | none => false
  | some (d, m, y, consumed) =>
    consumed == s.length && d ≤ daysInMonth (expandYear y) m

/-- Matches of strptime's `%H` directive, alternation `2[0-3]|[0-1]\d|\d`. -/
def hourAlts (cs : List Char) : List (Nat × Nat) :=
  (match cs with
   | '2' :: b :: _ =>
       if b = '0' ∨ b = '1' ∨ b = '2' ∨ b = '3' then [(20 + digitVal b, 2)] else []
   | _ => []) ++
  (match cs with
   | a :: b :: _ => if (a = '0' ∨ a = '1') ∧ b.isDigit then [(10 * digitVal a + digitVal b, 2)] else []
   | _ => []) ++
  (match cs with
   | a :: _ => if a.isDigit then [(digitVal a, 1)] else []
   | _ => [])

/-- Matches of strptime's `%M` directive, alternation `[0-5]\d|\d`. -/
def minuteAlts (cs : List Char) : List (Nat × Nat) :=
  (match cs with
   | a :: b :: _ =>
       if a.isDigit ∧ digitVal a ≤ 5 ∧ b.isDigit then [(10 * digitVal a + digitVal b, 2)] else []
   | _ => []) ++
  (match cs with
   | a :: _ => if a.isDigit then [(digitVal a, 1)] else []
   | _ => [])

/-- The priority-first match of `(%H)(%M)`: (hour, minute, chars consumed). -/
def parseHM (cs : List Char) : Option (Nat × Nat × Nat) :=
  (hourAlts cs).findSome? fun hc =>
    (minuteAlts (cs.drop hc.2)).findSome? fun mc =>
      some (hc.1, mc.1, hc.2 + mc.2)

/-- Whether `datetime.strptime(s, "%H%M")` succeeds (every regex match is
already a valid time of day, so only full consumption matters). -/
def strptime_hhmm (s : String) : Bool :=
  match parseHM s.toList with
  | none => false
  | some (_, _, consumed) => consumed == s.length

/-- `iRail._validate_date`: a falsy value (`None` or `""`) passes; otherwise
`datetime.strptime(date, "%d%m%y")` must succeed. -/
def _validate_date (v : Val) : Bool :=
  match v with
  | Val.null => true
  | Val.str s => if s.isEmpty then true else strptime_ddmmyy s

/-- `iRail._validate_time`: a falsy value passes; otherwise
`datetime.strptime(time, "%H%M")` must succeed. -/
def _validate_time (v : Val) : Bool :=
  match v with
  | Val.null => true
  | Val.str s => if s.isEmpty then true else strptime_hhmm s

/-- Python `params.get(k) is not None`: the key is present with a non-null
value. -/
def presentNonNull (p : Params) (k : String) : Bool :=
  match p.lookup k with
  | some (Val.str _) => true
  | _ => false

/-- Python `k in params and not f(params[k])`, packaged positively: if the
key is present its value must satisfy `f`. -/
def fieldCheck (f : Val → Bool) (p : Params) (k : String) : Bool :=
  match p.lookup k with
  | some v => f v
  | none => true

/-- `iRail.validate_params` (irail.py lines 169-208). -/
def validate_params (method : String) (params : Params) : Bool :=
  match endpoints.lookup method with
  | none => false
  | some ep =>
    if ! fieldCheck _validate_date params "date" then false
    else if ! fieldCheck _validate_time params "time" then false
    else if ! (ep.required.all fun r => presentNonNull params r) then false
    else if (! ep.xor.isEmpty) && ! (ep.xor.countP (fun k => presentNonNull params k) == 1) then
      false
    else if ! (params.all fun kv => (ep.required ++ ep.xor ++ ep.optional).contains kv.1) then
      false
    else true

lemma fieldCheck_eq_true_iff (f : Val → Bool) (p : Params) (k : String) :
    fieldCheck f p k = true ↔ ∀ v, p.lookup k = some v → f v = true := by
  unfold fieldCheck
  cases h : p.lookup k <;> simp

lemma validate_params_iff_conj (method : String) (p : Params) (ep : EndpointDesc)
    (h : endpoints.lookup method = some ep) :
    validate_params method p = true ↔
      (fieldCheck _validate_date p "date" = true ∧ fieldCheck _validate_time p "time" = true ∧
       (∀ r ∈ ep.required, presentNonNull p r = true) ∧
       (ep.xor = [] ∨ ep.xor.countP (fun k => presentNonNull p k) = 1) ∧
       (∀ kv ∈ p, kv.1 ∈ ep.required ++ ep.xor ++ ep.optional)) := by
  unfold validate_params
  rw [h]
  by_cases h1 : fieldCheck _validate_date p "date" = true <;>
  by_cases h2 : fieldCheck _validate_time p "time" = true <;>
  by_cases h3 : ∀ r ∈ ep.required, presentNonNull p r = true <;>
  by_cases h4 : ep.xor = [] ∨ ep.xor.countP (fun k => presentNonNull p k) = 1 <;>
  by_cases h5 : ∀ kv ∈ p, kv.1 ∈ ep.required ++ ep.xor ++ ep.optional <;>
  simp_all [List.all_eq_true, List.isEmpty_iff, beq_iff_eq, List.elem_iff]

/-- C1: `validate_params` returns true iff the endpoint is known, every
required parameter is present and non-null, a non-empty xor group has
exactly one present-and-non-null member, every supplied key belongs to
required ∪ xor ∪ optional, and any present date/time values pass their
format validators. -/
theorem C1_validate_params_iff (method : String) (p : Params) :
    validate_params method p = true ↔
      ∃ ep, endpoints.lookup method = some ep ∧
        (∀ v, p.lookup "date" = some v → _validate_date v = true) ∧
        (∀ v, p.lookup "time" = some v → _validate_time v = true) ∧
        (∀ r ∈ ep.required, presentNonNull p r = true) ∧
        (ep.xor ≠ [] → ep.xor.countP (fun k => presentNonNull p k) = 1) ∧
        (∀ kv ∈ p, kv.1 ∈ ep.required ++ ep.xor ++ ep.optional) := by
  cases h : endpoints.lookup method with
  | none =>
      unfold validate_params
      rw [h]
      simp [h]
  | some ep =>
      rw [validate_params_iff_conj method p ep h]
      simp only [h, Option.some.injEq, exists_eq_left', fieldCheck_eq_true_iff,
        or_iff_not_imp_left]

/-- Python `int()` applied to a rational: truncation toward zero. -/
def pyInt (q : ℚ) : ℤ := q.num.tdiv q.den

/-- The rate-limiter fields of an `iRail` instance: `tokens` and
`burst_tokens` are Python `int`s, `last_request_time` a wall-clock time. -/
structure LimiterState where
  tokens : ℤ
  burst_tokens : ℤ
  last_request_time : ℚ
deriving DecidableEq, Repr

/-- `iRail._refill_tokens` (irail.py lines 106-116); `now` is the
`time.time()` reading the call observes. -/
def _refill_tokens (st : LimiterState) (now : ℚ) : LimiterState :=
  let elapsed : ℚ := now - st.last_request_time
  { tokens := min 3 (st.tokens + pyInt (elapsed * 3)),
    burst_tokens := min 5 (st.burst_tokens + pyInt (elapsed * 3)),
    last_request_time := now }

/-- The wait the slow path computes before sleeping:
`max(0, 1 - (time.time() - self.last_request_time))` with `t1` the time
stored by the refill and `t2` the fresh reading. -/
def waitTime (t1 t2 : ℚ) : ℚ := max 0 (1 - (t2 - t1))

/-- `iRail._handle_rate_limit` (irail.py lines 118-137). `t1` is the clock
reading of the initial refill; when both pools are exhausted the code
computes a wait from a second reading `t2`, sleeps, and refills again at
reading `t3`. The readings are constrained by `acquireTimesOk`. -/
def _handle_rate_limit (st : LimiterState) (t1 t2 t3 : ℚ) : LimiterState :=
  let st1 := _refill_tokens st t1
  if st1.tokens < 1 then
    if st1.burst_tokens ≥ 1 then
      { st1 with burst_tokens := st1.burst_tokens - 1 }
    else
      let st2 := _refill_tokens st1 t3
      { st2 with tokens := st2.tokens - 1 }
  else
    { st1 with tokens := st1.tokens - 1 }

/-- Admissible clock readings for one `_handle_rate_limit` call: the clock
is monotone and `asyncio.sleep(waitTime)` suspends for at least the
computed wait, so the post-sleep reading `t3` is at least `t2 + wait`. -/
def acquireTimesOk (last : ℚ) (t : ℚ × ℚ × ℚ) : Bool :=
  decide (last ≤ t.1) && decide (t.1 ≤ t.2.1) && decide (t.2.1 + waitTime t.1 t.2.1 ≤ t.2.2)

/-- Fold a sequence of `_handle_rate_limit` calls over the limiter state. -/
def runAcquires (st : LimiterState) : List (ℚ × ℚ × ℚ) → LimiterState
  | [] => st
  | t :: ts => runAcquires (_handle_rate_limit st t.1 t.2.1 t.2.2) ts

/-- All clock readings of a sequence of calls are admissible. -/
def timesOk (st : LimiterState) : List (ℚ × ℚ × ℚ) → Bool
  | [] => true
  | t :: ts => acquireTimesOk st.last_request_time t &&
      timesOk (_handle_rate_limit st t.1 t.2.1 t.2.2) ts

/-- Both token pools are within their caps. -/
def limiterInv (st : LimiterState) : Prop :=
  0 ≤ st.tokens ∧ st.tokens ≤ 3 ∧ 0 ≤ st.burst_tokens ∧ st.burst_tokens ≤ 5

/-- The limiter fields set by `iRail.__init__`: 3 steady tokens, 5 burst
tokens, `last_request_time = time.time()`. -/
def initLimiter (t0 : ℚ) : LimiterState := ⟨3, 5, t0⟩

lemma pyInt_eq_floor {q : ℚ} (h : 0 ≤ q) : pyInt q = ⌊q⌋ := by
  rw [Rat.floor_def]
  exact Int.tdiv_eq_ediv (Rat.num_nonneg.mpr h) (Int.ofNat_nonneg q.den)

lemma pyInt_nonneg {q : ℚ} (h : 0 ≤ q) : 0 ≤ pyInt q := by
  rw [pyInt_eq_floor h]
  exact Int.le_floor.mpr (by exact_mod_cast h)

lemma le_pyInt {n : ℤ} {q : ℚ} (h0 : 0 ≤ q) (h : (n : ℚ) ≤ q) : n ≤ pyInt q := by
  rw [pyInt_eq_floor h0]
  exact Int.le_floor.mpr h

lemma pyInt_le {q : ℚ} (h : 0 ≤ q) : (pyInt q : ℚ) ≤ q := by
  rw [pyInt_eq_floor h]
  exact Int.floor_le q

lemma lt_pyInt_add_one {q : ℚ} (h : 0 ≤ q) : q < (pyInt q : ℚ) + 1 := by
  rw [pyInt_eq_floor h]
  exact Int.lt_floor_add_one q

lemma refill_fields (st : LimiterState) (now : ℚ) :
    _refill_tokens st now =
      ⟨min 3 (st.tokens + pyInt ((now - st.last_request_time) * 3)),
       min 5 (st.burst_tokens + pyInt ((now - st.last_request_time) * 3)), now⟩ := rfl

lemma refill_tokens_proj (st : LimiterState) (now : ℚ) :
    (_refill_tokens st now).tokens =
      min 3 (st.tokens + pyInt ((now - st.last_request_time) * 3)) := rfl

lemma refill_burst_proj (st : LimiterState) (now : ℚ) :
    (_refill_tokens st now).burst_tokens =
      min 5 (st.burst_tokens + pyInt ((now - st.last_request_time) * 3)) := rfl

lemma refill_last_proj (st : LimiterState) (now : ℚ) :
    (_refill_tokens st now).last_request_time = now := rfl

lemma handle_cases (st : LimiterState) (t1 t2 t3 : ℚ) :
    _handle_rate_limit st t1 t2 t3 =
      if (_refill_tokens st t1).tokens < 1 then
        if (_refill_tokens st t1).burst_tokens ≥ 1 then
          ⟨(_refill_tokens st t1).tokens, (_refill_tokens st t1).burst_tokens - 1, t1⟩
        else
          ⟨(_refill_tokens (_refill_tokens st t1) t3).tokens - 1,
           (_refill_tokens (_refill_tokens st t1) t3).burst_tokens, t3⟩
      else ⟨(_refill_tokens st t1).tokens - 1, (_refill_tokens st t1).burst_tokens, t1⟩ := rfl

lemma refill_inv {st : LimiterState} {now : ℚ} (h : st.last_request_time ≤ now)
    (hInv : limiterInv st) : limiterInv (_refill_tokens st now) := by
  have hk : 0 ≤ pyInt ((now - st.last_request_time) * 3) :=
    pyInt_nonneg (by nlinarith)
  simp only [limiterInv, refill_fields] at hInv ⊢
  omega

lemma acquire_inv {st : LimiterState} {t1 t2 t3 : ℚ}
    (ha : st.last_request_time ≤ t1) (hb : t1 ≤ t2)
    (hc : t2 + waitTime t1 t2 ≤ t3)
    (hInv : limiterInv st) : limiterInv (_handle_rate_limit st t1 t2 t3) := by
  obtain ⟨j1, j2, j3, j4⟩ := hInv
  have hk1 : 0 ≤ pyInt ((t1 - st.last_request_time) * 3) := pyInt_nonneg (by nlinarith)
  have ht31 : (1 : ℚ) ≤ t3 - t1 := by
    have hmax : (1 - (t2 - t1) : ℚ) ≤ waitTime t1 t2 := le_max_right _ _
    linarith
  have hk2 : (3 : ℤ) ≤ pyInt ((t3 - t1) * 3) :=
    le_pyInt (by nlinarith) (by push_cast; nlinarith)
  rw [handle_cases]
  by_cases hc1 : (_refill_tokens st t1).tokens < 1
  · by_cases hc2 : (_refill_tokens st t1).burst_tokens ≥ 1
    · rw [if_pos hc1, if_pos hc2]
      unfold limiterInv
      simp only [refill_tokens_proj, refill_burst_proj, refill_last_proj] at hc1 hc2 ⊢
      omega
    · rw [if_pos hc1, if_neg hc2]
      unfold limiterInv
      simp only [refill_tokens_proj, refill_burst_proj, refill_last_proj] at hc1 hc2 ⊢
      omega
  · rw [if_neg hc1]
    unfold limiterInv
    simp only [refill_tokens_proj, refill_burst_proj, refill_last_proj] at hc1 ⊢
    omega

lemma timesOk_runAcquires_inv {st : LimiterState} {ts : List (ℚ × ℚ × ℚ)}
    (hInv : limiterInv st) (hok : timesOk st ts = true) :
    limiterInv (runAcquires st ts) := by
  induction ts generalizing st with
  | nil => exact hInv
  | cons t ts ih =>
      simp only [timesOk, acquireTimesOk, Bool.and_eq_true, decide_eq_true_eq] at hok
      obtain ⟨⟨⟨ha, hb⟩, hc⟩, hrest⟩ := hok
      exact ih (acquire_inv ha hb hc hInv) hrest

lemma timesOk_append_left {st : LimiterState} {ts1 ts2 : List (ℚ × ℚ × ℚ)}
    (hok : timesOk st (ts1 ++ ts2) = true) : timesOk st ts1 = true := by
  induction ts1 generalizing st with
  | nil => rfl
  | cons t ts ih =>
      simp only [List.cons_append, timesOk, Bool.and_eq_true] at hok ⊢
      exact ⟨hok.1, ih hok.2⟩

/-- C2: from the initial limiter state (3 steady, 5 burst tokens), across
any admissible sequence of `_handle_rate_limit` calls interleaved with
arbitrary clock advances — and at every intermediate point of the
sequence — the steady pool stays in [0, 3] and the burst pool in [0, 5]. -/
theorem C2_token_bounds (t0 : ℚ) (ts1 ts2 : List (ℚ × ℚ × ℚ))
    (hok : timesOk (initLimiter t0) (ts1 ++ ts2) = true) :
    0 ≤ (runAcquires (initLimiter t0) ts1).tokens ∧
      (runAcquires (initLimiter t0) ts1).tokens ≤ 3 ∧
      0 ≤ (runAcquires (initLimiter t0) ts1).burst_tokens ∧
      (runAcquires (initLimiter t0) ts1).burst_tokens ≤ 5 := by
  have hInv : limiterInv (initLimiter t0) := by
    unfold limiterInv initLimiter
    norm_num
  exact timesOk_runAcquires_inv hInv (timesOk_append_left hok)

/-- Witness for C2 at a concrete two-call schedule. -/
theorem C2_token_bounds_witness :
    timesOk (initLimiter 0) ([((0 : ℚ), (0 : ℚ), (1 : ℚ))] ++ [((1 : ℚ), (1 : ℚ), (2 : ℚ))]) =
        true ∧
      0 ≤ (runAcquires (initLimiter 0) [((0 : ℚ), (0 : ℚ), (1 : ℚ))]).tokens ∧
      (runAcquires (initLimiter 0) [((0 : ℚ), (0 : ℚ), (1 : ℚ))]).tokens ≤ 3 ∧
      0 ≤ (runAcquires (initLimiter 0) [((0 : ℚ), (0 : ℚ), (1 : ℚ))]).burst_tokens ∧
      (runAcquires (initLimiter 0) [((0 : ℚ), (0 : ℚ), (1 : ℚ))]).burst_tokens ≤ 5 := by
  have hok : timesOk (initLimiter 0)
      ([((0 : ℚ), (0 : ℚ), (1 : ℚ))] ++ [((1 : ℚ), (1 : ℚ), (2 : ℚ))]) = true := by
    have h0 : Int.tdiv 0 1 = 0 := by decide
    have h3 : Int.tdiv 3 1 = 3 := by decide
    norm_num [timesOk, acquireTimesOk, waitTime, handle_cases, refill_tokens_proj,
      refill_burst_proj, refill_last_proj, pyInt, initLimiter, h0, h3]
  exact ⟨hok, C2_token_bounds 0 [((0 : ℚ), (0 : ℚ), (1 : ℚ))] [((1 : ℚ), (1 : ℚ), (2 : ℚ))] hok⟩

/-- C3 counterexample: with zero tokens and a half-second elapsed, the code
refills to `min(3, 0 + int(0.5 * 3)) = 1` whole token, not the claimed
proportional `min(3, 0 + 0.5 * 3) = 3/2`. -/
theorem C3_refill_is_truncated_counterexample :
    (_refill_tokens ⟨0, 0, 0⟩ (1 / 2)).tokens = 1 ∧
      ¬ (((_refill_tokens ⟨0, 0, 0⟩ (1 / 2)).tokens : ℚ) =
          min 3 ((0 : ℚ) + ((1 / 2 : ℚ) - 0) * 3)) := by
  have htd : Int.tdiv 3 2 = 1 := by decide
  have h1 : (_refill_tokens ⟨0, 0, 0⟩ (1 / 2)).tokens = 1 := by
    norm_num [refill_tokens_proj, pyInt, htd]
  refine ⟨h1, ?_⟩
  rw [h1]
  norm_num

/-- C3 amended: the refill step adds the same whole-token amount
`k = int(elapsed * 3)` to both pools, capped at 3 and 5 respectively; `k`
is `elapsed * 3` rounded down to a whole number of tokens, i.e.
`elapsed * 3 - 1 < k ≤ elapsed * 3`. -/
theorem C3_amended_refill_truncated (st : LimiterState) (now : ℚ)
    (h : st.last_request_time ≤ now) :
    ∃ k : ℤ, 0 ≤ k ∧
      _refill_tokens st now =
        ⟨min 3 (st.tokens + k), min 5 (st.burst_tokens + k), now⟩ ∧
      (k : ℚ) ≤ (now - st.last_request_time) * 3 ∧
      (now - st.last_request_time) * 3 < (k : ℚ) + 1 := by
  refine ⟨pyInt ((now - st.last_request_time) * 3), ?_, refill_fields st now, ?_, ?_⟩
  · exact pyInt_nonneg (by nlinarith)
  · exact pyInt_le (by nlinarith)
  · exact lt_pyInt_add_one (by nlinarith)

/-- Witness for the amended C3 at a concrete state and time. -/
theorem C3_amended_refill_truncated_witness :
    (initLimiter 0).last_request_time ≤ (1 : ℚ) ∧
      ∃ k : ℤ, 0 ≤ k ∧
        _refill_tokens (initLimiter 0) 1 =
          ⟨min 3 ((initLimiter 0).tokens + k), min 5 ((initLimiter 0).burst_tokens + k), 1⟩ ∧
        (k : ℚ) ≤ ((1 : ℚ) - (initLimiter 0).last_request_time) * 3 ∧
        ((1 : ℚ) - (initLimiter 0).last_request_time) * 3 < (k : ℚ) + 1 := by
  have h : (initLimiter 0).last_request_time ≤ (1 : ℚ) := by
    norm_num [initLimiter]
  exact ⟨h, C3_amended_refill_truncated (initLimiter 0) 1 h⟩

/-- The `format` property setter: invalid values silently become "json". -/
def set_format (v : String) : String :=
  if v = "xml" ∨ v = "json" ∨ v = "jsonp" then v else "json"

/-- The `lang` property setter: invalid values silently become "en". -/
def set_lang (v : String) : String :=
  if v = "nl" ∨ v = "fr" ∨ v = "en" ∨ v = "de" then v else "en"

/-- The mutable fields of an `iRail` instance that the request pipeline
touches: configuration, limiter, whether `__aenter__` opened the session,
and the ETag cache. -/
structure ClientState where
  format : String
  lang : String
  limiter : LimiterState
  session_open : Bool
  etag_cache : List (String × String)
deriving DecidableEq, Repr

/-- `iRail.__init__(format, lang)`. -/
def mkIRail (format lang : String) (t0 : ℚ) : ClientState :=
  { format := set_format format, lang := set_lang lang, limiter := initLimiter t0,
    session_open := false, etag_cache := [] }

/-- `iRail.__aenter__`: opens the aiohttp session. -/
def openSession (st : ClientState) : ClientState := { st with session_open := true }

/-- `iRail._add_etag_header` (irail.py lines 139-145). -/
def _add_etag_header (cache : List (String × String)) (method : String) :
    List (String × String) :=
  let headers : List (String × String) :=
    [("User-Agent", "pyRail (https://github.com/tjorim/pyrail; tielemans.jorim@gmail.com)")]
  match cache.lookup method with
  | some v => headers ++ [("If-None-Match", v)]
  | none => headers

/-- Python dict assignment `d[k] = v`: overwrite in place when the key
exists, append otherwise. -/
def dictSet (d : List (String × String)) (k v : String) : List (String × String) :=
  if (d.lookup k).isSome then d.map (fun kv => if kv.1 = k then (k, v) else kv)
  else d ++ [(k, v)]

/-- Python `base.update(args)`: existing keys are overwritten in place,
new keys appended in order. -/
def dictUpdate (base args : List (String × Val)) : List (String × Val) :=
  base.map (fun kv => (kv.1, (args.lookup kv.1).getD kv.2)) ++
    args.filter fun kv => (base.lookup kv.1).isNone

/-- Digits of a Python integer literal after the first one: single
underscores are allowed between digits. -/
def digitsWithUnderscores : List Char → Nat → Option Nat
  | [], acc => some acc
  | '_' :: c :: rest, acc =>
      if c.isDigit then digitsWithUnderscores rest (acc * 10 + digitVal c) else none
  | c :: rest, acc =>
      if c.isDigit then digitsWithUnderscores rest (acc * 10 + digitVal c) else none

/-- Python `int(s)` on a string: strip surrounding whitespace, optional
sign, then digits (underscore separators allowed); `none` models the
`ValueError` raised on anything else. -/
def pyIntOfString (s : String) : Option ℤ :=
  let cs := ((s.toList.dropWhile Char.isWhitespace).reverse.dropWhile
    Char.isWhitespace).reverse
  match cs with
  | '+' :: c :: rest =>
      if c.isDigit then (digitsWithUnderscores rest (digitVal c)).map Int.ofNat else none
  | '-' :: c :: rest =>
      if c.isDigit then (digitsWithUnderscores rest (digitVal c)).map (fun n => -(n : ℤ))
      else none
  | c :: rest =>
      if c.isDigit then (digitsWithUnderscores rest (digitVal c)).map Int.ofNat else none
  | [] => none

/-- The `int(response.headers.get("Retry-After", 1))` expression: an absent
header defaults to the integer 1; a present header is parsed as a Python
`int`, where `none` models the (uncaught) `ValueError`. -/
def retryDelay (retryAfter : Option String) : Option ℤ :=
  match retryAfter with
  | none => some 1
  | some s => pyIntOfString s

/-- What the transport produces for one attempt: either `aiohttp` raises
`ClientError`, or a response arrives with a status, optional `Retry-After`
and `Etag` headers, and a body (`none` models a body `response.json()`
fails to parse). -/
inductive TransportEvent where
  | clientError
  | response (status : Nat) (retryAfter : Option String) (etag : Option String)
      (body : Option (List (String × String)))
deriving DecidableEq, Repr

/-- Inputs of one attempt: the three clock readings the rate limiter may
observe, and the transport event for the attempt. -/
structure AttemptEnv where
  t1 : ℚ
  t2 : ℚ
  t3 : ℚ
  event : TransportEvent
deriving DecidableEq, Repr

/-- A request as handed to `self.session.get`. -/
structure IssuedRequest where
  url : String
  params : Params
  headers : List (String × String)
deriving DecidableEq, Repr

/-- What a `do_request` call does from the caller's view: return a value
(`ret`), escape with the uncaught `ValueError` of the Retry-After parse
(`raise`), or — a model artifact — run out of supplied transport events
(`noEvent`). -/
inductive PyOutcome where
  | ret (v : Option (List (String × String)))
  | raise
  | noEvent
deriving DecidableEq, Repr

/-- Result of a `do_request` call: outcome, final client state, the
requests issued to the transport in order, and the `asyncio.sleep`
durations of the 429 path in order. -/
structure DoResult where
  outcome : PyOutcome
  state : ClientState
  trace : List IssuedRequest
  sleeps : List ℤ
deriving DecidableEq, Repr

/-- The `async with self.lock: await self._handle_rate_limit()` step. -/
def attemptState (st : ClientState) (env : AttemptEnv) : ClientState :=
  { st with limiter := _handle_rate_limit st.limiter env.t1 env.t2 env.t3 }

/-- The url / query parameters / headers constructed for the attempt
(irail.py lines 222-228). -/
def requestOf (st : ClientState) (method : String) (args : Params) : IssuedRequest :=
  ⟨"https://api.irail.be/" ++ method ++ "/",
   dictUpdate [("format", Val.str st.format), ("lang", Val.str st.lang)] args,
   _add_etag_header st.etag_cache method⟩

/-- `iRail.do_request` (irail.py lines 210-266), one transport event per
attempt; the 429 branch recurses on the remaining events. -/
def do_request : ClientState → String → Params → List AttemptEnv → DoResult
  | st, method, args, envs =>
    if st.session_open = false then ⟨PyOutcome.ret none, st, [], []⟩
    else if validate_params method args = false then ⟨PyOutcome.ret none, st, [], []⟩
    else
      match envs with
      | [] => ⟨PyOutcome.noEvent, st, [], []⟩
      | env :: rest =>
        let st1 := attemptState st env
        let req := requestOf st1 method args
        match env.event with
        | TransportEvent.clientError => ⟨PyOutcome.ret none, st1, [req], []⟩
        | TransportEvent.response status retryAfter etag body =>
          if status = 429 then
            match retryDelay retryAfter with
            | none => ⟨PyOutcome.raise, st1, [req], []⟩
            | some k =>
              let r := do_request st1 method args rest
              ⟨r.outcome, r.state, req :: r.trace, k :: r.sleeps⟩
          else if status = 400 then ⟨PyOutcome.ret none, st1, [req], []⟩
          else if status = 404 then ⟨PyOutcome.ret none, st1, [req], []⟩
          else if status = 200 then
            let st2 :=
              match etag with
              | some v => { st1 with etag_cache := dictSet st1.etag_cache method v }
              | none => st1
            match body with
            | none => ⟨PyOutcome.ret none, st2, [req], []⟩
            | some d => ⟨PyOutcome.ret (some d), st2, [req], []⟩
          else if status = 304 then ⟨PyOutcome.ret none, st1, [req], []⟩
          else ⟨PyOutcome.ret none, st1, [req], []⟩

/-- `iRail.get_liveboard`'s argument shaping: build the parameter dict and
drop `None` values (irail.py lines 272-290). -/
def get_liveboard_args (station id date time : Option String) (arrdep : String)
    (alerts : Bool) : Params :=
  (([("station", station), ("id", id), ("date", date), ("time", time),
     ("arrdep", some arrdep), ("alerts", some (if alerts then "true" else "false"))] :
      List (String × Option String)).filter fun kv => kv.2.isSome).map
    fun kv => (kv.1, Val.str (kv.2.getD ""))

example : pyIntOfString "2" = some 2 := by decide
example : pyIntOfString " -3 " = some (-3) := by decide
example : pyIntOfString "two" = none := by decide
example : pyIntOfString "1_2" = some 12 := by decide
example : pyIntOfString "" = none := by decide

/-- A concrete opened client used by witnesses. -/
def demoClient : ClientState := openSession (mkIRail "json" "en" 0)

/-- C8: when validation fails, `do_request` returns the absent result
(`None`) with no transport request issued, no sleep, and the client state
untouched — the call terminates before any network activity. -/
theorem C8_validation_failure_no_network (st : ClientState) (method : String)
    (args : Params) (envs : List AttemptEnv)
    (hvalid : validate_params method args = false) :
    do_request st method args envs = ⟨PyOutcome.ret none, st, [], []⟩ := by
  unfold do_request
  by_cases hs : st.session_open = false
  · rw [if_pos hs]
  · rw [if_neg hs, if_pos hvalid]

/-- Witness for C8: the liveboard query with both `station` and `id` set
fails validation and issues no request. -/
theorem C8_validation_failure_no_network_witness :
    validate_params "liveboard"
        (get_liveboard_args (some "Gent") (some "008892007") none none "departure" false) =
        false ∧
      do_request demoClient "liveboard"
        (get_liveboard_args (some "Gent") (some "008892007") none none "departure" false)
        [⟨0, 0, 1, TransportEvent.response 200 none none (some [])⟩] =
        ⟨PyOutcome.ret none, demoClient, [], []⟩ :=
  ⟨by decide, C8_validation_failure_no_network demoClient "liveboard" _ _ (by decide)⟩

/-- C6: a 304 response makes the pipeline return the "not modified"
sentinel (`None`, no payload) and leaves the ETag cache exactly as it
was. -/
theorem C6_304_returns_sentinel_keeps_etag (st : ClientState) (method : String)
    (args : Params) (env : AttemptEnv) (rest : List AttemptEnv)
    (ra et : Option String) (body : Option (List (String × String)))
    (hopen : st.session_open = true) (hvalid : validate_params method args = true)
    (hev : env.event = TransportEvent.response 304 ra et body) :
    (do_request st method args (env :: rest)).outcome = PyOutcome.ret none ∧
      (do_request st method args (env :: rest)).state.etag_cache = st.etag_cache := by
  simp [do_request, hopen, hvalid, hev, attemptState]

/-- Witness for C6 at a concrete 304 exchange. -/
theorem C6_304_returns_sentinel_keeps_etag_witness :
    demoClient.session_open = true ∧
      validate_params "stations" [] = true ∧
      (⟨0, 0, 1, TransportEvent.response 304 none (some "W/xyz") none⟩ : AttemptEnv).event =
        TransportEvent.response 304 none (some "W/xyz") none ∧
      (do_request demoClient "stations" []
          [⟨0, 0, 1, TransportEvent.response 304 none (some "W/xyz") none⟩]).outcome =
        PyOutcome.ret none ∧
      (do_request demoClient "stations" []
          [⟨0, 0, 1, TransportEvent.response 304 none (some "W/xyz") none⟩]).state.etag_cache =
        demoClient.etag_cache := by
  refine ⟨rfl, by decide, rfl, ?_⟩
  exact C6_304_returns_sentinel_keeps_etag demoClient "stations" [] _ [] none (some "W/xyz")
    none rfl (by decide) rfl

/-- C7 amended: a transport-level `ClientError` is caught and surfaced as
the absent result (`None`) — the same value as the no-data outcomes — with
no retry and no sleep. -/
theorem C7_amended_client_error_absent (st : ClientState) (method : String)
    (args : Params) (env : AttemptEnv) (rest : List AttemptEnv)
    (hopen : st.session_open = true) (hvalid : validate_params method args = true)
    (hev : env.event = TransportEvent.clientError) :
    do_request st method args (env :: rest) =
      ⟨PyOutcome.ret none, attemptState st env,
       [requestOf (attemptState st env) method args], []⟩ := by
  simp [do_request, hopen, hvalid, hev]

/-- Witness for the amended C7. -/
theorem C7_amended_client_error_absent_witness :
    demoClient.session_open = true ∧ validate_params "stations" [] = true ∧
      do_request demoClient "stations" [] [⟨0, 0, 1, TransportEvent.clientError⟩] =
        ⟨PyOutcome.ret none, attemptState demoClient ⟨0, 0, 1, TransportEvent.clientError⟩,
         [requestOf (attemptState demoClient ⟨0, 0, 1, TransportEvent.clientError⟩)
            "stations" []], []⟩ :=
  ⟨rfl, by decide,
    C7_amended_client_error_absent demoClient "stations" [] _ [] rfl (by decide) rfl⟩

/-- C7 counterexample: a connection failure produces exactly the same
outcome (`None`) as a plain no-data 404 response, so the caller cannot
tell "could not ask" from "no data". -/
theorem C7_transport_error_indistinguishable :
    (do_request demoClient "stations" [] [⟨0, 0, 1, TransportEvent.clientError⟩]).outcome =
        PyOutcome.ret none ∧
      (do_request demoClient "stations" []
          [⟨0, 0, 1, TransportEvent.response 404 none none none⟩]).outcome =
        PyOutcome.ret none := by
  have hv : validate_params "stations" [] = true := by decide
  constructor <;> simp [do_request, hv, demoClient, openSession, mkIRail, set_format, set_lang]

lemma do_request_non429_single (st : ClientState) (method : String) (args : Params)
    (env : AttemptEnv) (rest : List AttemptEnv) (status : Nat) (ra et : Option String)
    (body : Option (List (String × String)))
    (hopen : st.session_open = true) (hvalid : validate_params method args = true)
    (hev : env.event = TransportEvent.response status ra et body) (h429 : status ≠ 429) :
    (do_request st method args (env :: rest)).sleeps = [] ∧
      (do_request st method args (env :: rest)).trace =
        [requestOf (attemptState st env) method args] := by
  constructor <;>
  · conv_lhs => rw [do_request]
    rcases et with _ | v <;> rcases body with _ | d <;>
      simp [hopen, hvalid, hev, h429] <;>
      by_cases h400 : status = 400 <;> by_cases h404 : status = 404 <;>
      by_cases h200 : status = 200 <;> by_cases h304 : status = 304 <;>
      simp [h400, h404, h200, h304]

/-- C4 amended: on a 429 response the delay is the Retry-After header
parsed as a Python int, defaulting to 1 second only when the header is
absent; a header that is not a well-formed integer raises an uncaught
`ValueError` that aborts the call with no sleep and no retry; with a
well-formed delay the pipeline sleeps that many seconds and fully re-runs
`do_request`, returning the subsequent attempt's outcome; and no non-429
status ever sleeps or retries. -/
theorem C4_amended_429_retry_semantics (st : ClientState) (method : String)
    (args : Params) (env : AttemptEnv) (rest : List AttemptEnv) (ra : Option String)
    (et : Option String) (body : Option (List (String × String)))
    (hopen : st.session_open = true) (hvalid : validate_params method args = true)
    (hev : env.event = TransportEvent.response 429 ra et body) :
    (ra = none → retryDelay ra = some 1) ∧
    (∀ k, retryDelay ra = some k →
      do_request st method args (env :: rest) =
        ⟨(do_request (attemptState st env) method args rest).outcome,
         (do_request (attemptState st env) method args rest).state,
         requestOf (attemptState st env) method args ::
           (do_request (attemptState st env) method args rest).trace,
         k :: (do_request (attemptState st env) method args rest).sleeps⟩) ∧
    (retryDelay ra = none →
      do_request st method args (env :: rest) =
        ⟨PyOutcome.raise, attemptState st env,
         [requestOf (attemptState st env) method args], []⟩) ∧
    (∀ (env' : AttemptEnv) (status : Nat) (ra' et' : Option String)
        (body' : Option (List (String × String))),
        env'.event = TransportEvent.response status ra' et' body' → status ≠ 429 →
        (do_request st method args (env' :: rest)).sleeps = [] ∧
          (do_request st method args (env' :: rest)).trace =
            [requestOf (attemptState st env') method args]) := by
  refine ⟨fun h => by rw [h, retryDelay], ?_, ?_, ?_⟩
  · intro k hk
    conv_lhs => rw [do_request]
    simp [hopen, hvalid, hev, hk]
  · intro hnone
    conv_lhs => rw [do_request]
    simp [hopen, hvalid, hev, hnone]
  · intro env' status ra' et' body' hev' h429
    exact do_request_non429_single st method args env' rest status ra' et' body'
      hopen hvalid hev' h429

/-- C4 counterexample: a 429 response whose Retry-After value is not a
well-formed integer does not default to a 1-second retry; the call aborts
with an uncaught `ValueError`, sleeping never and ignoring the followup
response that a retry would have returned. -/
theorem C4_invalid_retry_after_raises :
    (do_request demoClient "stations" []
        [⟨0, 0, 1, TransportEvent.response 429 (some "two") none none⟩,
         ⟨1, 1, 2, TransportEvent.response 200 none none (some [])⟩]).outcome =
        PyOutcome.raise ∧
      (do_request demoClient "stations" []
          [⟨0, 0, 1, TransportEvent.response 429 (some "two") none none⟩,
           ⟨1, 1, 2, TransportEvent.response 200 none none (some [])⟩]).sleeps = [] := by
  have hv : validate_params "stations" [] = true := by decide
  have hp : pyIntOfString "two" = none := by decide
  constructor <;>
    simp [do_request, hv, demoClient, openSession, mkIRail, set_format, set_lang,
      retryDelay, hp]

/-- Witness for the amended C4: a valid `Retry-After: 2` produces a single
2-second sleep and the second attempt's payload. -/
theorem C4_amended_429_retry_semantics_witness :
    demoClient.session_open = true ∧ validate_params "stations" [] = true ∧
      retryDelay (some "2") = some 2 ∧
      do_request demoClient "stations" []
          [⟨0, 0, 1, TransportEvent.response 429 (some "2") none none⟩,
           ⟨1, 1, 2, TransportEvent.response 200 none none (some [])⟩] =
        ⟨(do_request (attemptState demoClient
              ⟨0, 0, 1, TransportEvent.response 429 (some "2") none none⟩) "stations" []
              [⟨1, 1, 2, TransportEvent.response 200 none none (some [])⟩]).outcome,
         (do_request (attemptState demoClient
              ⟨0, 0, 1, TransportEvent.response 429 (some "2") none none⟩) "stations" []
              [⟨1, 1, 2, TransportEvent.response 200 none none (some [])⟩]).state,
         requestOf (attemptState demoClient
              ⟨0, 0, 1, TransportEvent.response 429 (some "2") none none⟩) "stations" [] ::
           (do_request (attemptState demoClient
              ⟨0, 0, 1, TransportEvent.response 429 (some "2") none none⟩) "stations" []
              [⟨1, 1, 2, TransportEvent.response 200 none none (some [])⟩]).trace,
         2 :: (do_request (attemptState demoClient
              ⟨0, 0, 1, TransportEvent.response 429 (some "2") none none⟩) "stations" []
              [⟨1, 1, 2, TransportEvent.response 200 none none (some [])⟩]).sleeps⟩ :=
  ⟨rfl, by decide, by decide,
    ((C4_amended_429_retry_semantics demoClient "stations" [] _ _ (some "2") none none rfl
      (by decide) rfl).2.1) 2 (by decide)⟩

lemma lookup_cons_pair_eq (k a2 : String) (t : List (String × String)) :
    List.lookup k ((k, a2) :: t) = some a2 := by
  simp [List.lookup]

lemma lookup_cons_pair_ne (k a1 a2 : String) (t : List (String × String)) (h : k ≠ a1) :
    List.lookup k ((a1, a2) :: t) = List.lookup k t := by
  have h' : (k == a1) = false := beq_eq_false_iff_ne.mpr h
  simp [List.lookup, h']

lemma lookup_overwrite (k v : String) :
    ∀ d : List (String × String), (d.lookup k).isSome = true →
      (d.map fun kv => if kv.1 = k then (k, v) else kv).lookup k = some v := by
  intro d
  induction d with
  | nil => intro h; simp at h
  | cons a d ih =>
      obtain ⟨a1, a2⟩ := a
      intro h
      rw [List.map_cons]
      by_cases hk : a1 = k
      · have he : (if (a1, a2).1 = k then (k, v) else (a1, a2)) = (k, v) := by
          simp [hk]
        rw [he, lookup_cons_pair_eq]
      · have he : (if (a1, a2).1 = k then (k, v) else (a1, a2)) = (a1, a2) := by
          simp [hk]
        have hne : k ≠ a1 := fun hh => hk hh.symm
        rw [he, lookup_cons_pair_ne k a1 a2 _ hne]
        rw [lookup_cons_pair_ne k a1 a2 d hne] at h
        exact ih h

lemma lookup_append_new (k v : String) :
    ∀ d : List (String × String), (d.lookup k).isSome = false →
      (d ++ [(k, v)]).lookup k = some v := by
  intro d
  induction d with
  | nil => intro h; exact lookup_cons_pair_eq k v []
  | cons a d ih =>
      obtain ⟨a1, a2⟩ := a
      intro h
      by_cases hk : k = a1
      · subst hk
        rw [lookup_cons_pair_eq] at h
        simp at h
      · rw [List.cons_append, lookup_cons_pair_ne k a1 a2 _ hk]
        rw [lookup_cons_pair_ne k a1 a2 d hk] at h
        exact ih h

lemma dictSet_lookup_self (d : List (String × String)) (k v : String) :
    (dictSet d k v).lookup k = some v := by
  unfold dictSet
  cases hcase : (d.lookup k).isSome with
  | true =>
      rw [if_pos rfl]
      exact lookup_overwrite k v d hcase
  | false =>
      rw [if_neg Bool.false_ne_true]
      exact lookup_append_new k v d hcase

lemma add_etag_mem (cache : List (String × String)) (method v : String)
    (h : cache.lookup method = some v) :
    ("If-None-Match", v) ∈ _add_etag_header cache method := by
  unfold _add_etag_header
  rw [h]
  simp

lemma do_request_trace_cons (st : ClientState) (method : String) (args : Params)
    (env : AttemptEnv) (rest : List AttemptEnv)
    (hopen : st.session_open = true) (hvalid : validate_params method args = true) :
    ∃ tail, (do_request st method args (env :: rest)).trace =
      requestOf (attemptState st env) method args :: tail := by
  rcases henv : env.event with _ | ⟨status, ra, et, body⟩
  · refine ⟨[], ?_⟩
    conv_lhs => rw [do_request]
    simp [hopen, hvalid, henv]
  · by_cases h429 : status = 429
    · subst h429
      rcases hrd : retryDelay ra with _ | k
      · refine ⟨[], ?_⟩
        conv_lhs => rw [do_request]
        simp [hopen, hvalid, henv, hrd]
      · refine ⟨(do_request (attemptState st env) method args rest).trace, ?_⟩
        conv_lhs => rw [do_request]
        simp [hopen, hvalid, henv, hrd]
    · refine ⟨[], ?_⟩
      conv_lhs => rw [do_request]
      rcases et with _ | v <;> rcases body with _ | d <;>
        simp [hopen, hvalid, henv, h429] <;>
        by_cases h400 : status = 400 <;> by_cases h404 : status = 404 <;>
        by_cases h200 : status = 200 <;> by_cases h304 : status = 304 <;>
        simp [h400, h404, h200, h304]

lemma do_request_200_state (st : ClientState) (method : String) (args : Params)
    (env : AttemptEnv) (rest : List AttemptEnv) (ra : Option String) (v : String)
    (body : Option (List (String × String)))
    (hopen : st.session_open = true) (hvalid : validate_params method args = true)
    (hev : env.event = TransportEvent.response 200 ra (some v) body) :
    (do_request st method args (env :: rest)).state =
      { attemptState st env with etag_cache := dictSet st.etag_cache method v } := by
  rcases body with _ | d <;> simp [do_request, hopen, hvalid, hev, attemptState]

/-- C5: after a 200 response whose headers carry an Etag for an endpoint,
the next request issued to that endpoint attaches exactly that value in a
conditional If-None-Match header. -/
theorem C5_etag_attached_on_next_request (st : ClientState) (method : String)
    (args : Params) (env env2 : AttemptEnv) (rest2 : List AttemptEnv)
    (ra : Option String) (v : String) (body : Option (List (String × String)))
    (hopen : st.session_open = true) (hvalid : validate_params method args = true)
    (hev : env.event = TransportEvent.response 200 ra (some v) body) :
    ∃ req tail,
      (do_request (do_request st method args [env]).state method args
            (env2 :: rest2)).trace = req :: tail ∧
        ("If-None-Match", v) ∈ req.headers := by
  have hstate := do_request_200_state st method args env [] ra v body hopen hvalid hev
  have hopen2 : (do_request st method args [env]).state.session_open = true := by
    rw [hstate]; exact hopen
  have hcache : (do_request st method args [env]).state.etag_cache =
      dictSet st.etag_cache method v := by rw [hstate]
  obtain ⟨tail, htail⟩ :=
    do_request_trace_cons (do_request st method args [env]).state method args env2 rest2
      hopen2 hvalid
  refine ⟨_, tail, htail, ?_⟩
  have hlk : (attemptState (do_request st method args [env]).state env2).etag_cache.lookup
      method = some v := by
    show (do_request st method args [env]).state.etag_cache.lookup method = some v
    rw [hcache]
    exact dictSet_lookup_self _ _ _
  exact add_etag_mem _ _ _ hlk

/-- Witness for C5: a liveboard 200 with an Etag followed by another
liveboard call. -/
theorem C5_etag_attached_on_next_request_witness :
    demoClient.session_open = true ∧
      validate_params "liveboard" [("station", Val.str "Gent")] = true ∧
      (⟨0, 0, 1, TransportEvent.response 200 none (some "W/abc") (some [])⟩ :
          AttemptEnv).event = TransportEvent.response 200 none (some "W/abc") (some []) ∧
      ∃ req tail,
        (do_request
              (do_request demoClient "liveboard" [("station", Val.str "Gent")]
                [⟨0, 0, 1, TransportEvent.response 200 none (some "W/abc") (some [])⟩]).state
              "liveboard" [("station", Val.str "Gent")]
              [⟨1, 1, 2, TransportEvent.response 304 none none none⟩]).trace = req :: tail ∧
          ("If-None-Match", "W/abc") ∈ req.headers :=
  ⟨rfl, by decide, rfl,
    C5_etag_attached_on_next_request demoClient "liveboard" [("station", Val.str "Gent")]
      ⟨0, 0, 1, TransportEvent.response 200 none (some "W/abc") (some [])⟩
      ⟨1, 1, 2, TransportEvent.response 304 none none none⟩ [] none "W/abc" (some [])
      rfl (by decide) rfl⟩

/-- C10: the ETag cache is keyed by endpoint name only — after a 200
response with a validator under one argument mapping, a subsequent request
to the same endpoint with any (possibly different) valid argument mapping
still carries that validator in its If-None-Match header. -/
theorem C10_etag_cache_keyed_by_endpoint (st : ClientState) (method : String)
    (args args2 : Params) (env env2 : AttemptEnv) (rest2 : List AttemptEnv)
    (ra : Option String) (v : String) (body : Option (List (String × String)))
    (hopen : st.session_open = true) (hvalid : validate_params method args = true)
    (hvalid2 : validate_params method args2 = true)
    (hev : env.event = TransportEvent.response 200 ra (some v) body) :
    ∃ req tail,
      (do_request (do_request st method args [env]).state method args2
            (env2 :: rest2)).trace = req :: tail ∧
        ("If-None-Match", v) ∈ req.headers := by
  have hstate := do_request_200_state st method args env [] ra v body hopen hvalid hev
  have hopen2 : (do_request st method args [env]).state.session_open = true := by
    rw [hstate]; exact hopen
  have hcache : (do_request st method args [env]).state.etag_cache =
      dictSet st.etag_cache method v := by rw [hstate]
  obtain ⟨tail, htail⟩ :=
    do_request_trace_cons (do_request st method args [env]).state method args2 env2 rest2
      hopen2 hvalid2
  refine ⟨_, tail, htail, ?_⟩
  have hlk : (attemptState (do_request st method args [env]).state env2).etag_cache.lookup
      method = some v := by
    show (do_request st method args [env]).state.etag_cache.lookup method = some v
    rw [hcache]
    exact dictSet_lookup_self _ _ _
  exact add_etag_mem _ _ _ hlk

/-- Witness for C10: the validator cached under a station-based liveboard
call is attached to a later id-based liveboard call. -/
theorem C10_etag_cache_keyed_by_endpoint_witness :
    demoClient.session_open = true ∧
      validate_params "liveboard" [("station", Val.str "Gent")] = true ∧
      validate_params "liveboard" [("id", Val.str "008892007")] = true ∧
      (⟨0, 0, 1, TransportEvent.response 200 none (some "W/etag9") (some [])⟩ :
          AttemptEnv).event = TransportEvent.response 200 none (some "W/etag9") (some []) ∧
      ∃ req tail,
        (do_request
              (do_request demoClient "liveboard" [("station", Val.str "Gent")]
                [⟨0, 0, 1, TransportEvent.response 200 none (some "W/etag9") (some [])⟩]).state
              "liveboard" [("id", Val.str "008892007")]
              [⟨1, 1, 2, TransportEvent.response 200 none none (some [])⟩]).trace =
            req :: tail ∧
          ("If-None-Match", "W/etag9") ∈ req.headers :=
  ⟨rfl, by decide, by decide, rfl,
    C10_etag_cache_keyed_by_endpoint demoClient "liveboard" [("station", Val.str "Gent")]
      [("id", Val.str "008892007")]
      ⟨0, 0, 1, TransportEvent.response 200 none (some "W/etag9") (some [])⟩
      ⟨1, 1, 2, TransportEvent.response 200 none none (some [])⟩ [] none "W/etag9" (some [])
      rfl (by decide) (by decide) rfl⟩

/-- The claim's words, not the code: a "fixed DDMMYY form" string is
exactly six digits — a two-digit day, two-digit month and two-digit
year — denoting a valid calendar date (year expanded by the strptime
pivot). Used only to compare the claim against the code's validator. -/
def isFixedDDMMYY (s : String) : Bool :=
  match s.toList with
  | [d1, d2, m1, m2, y1, y2] =>
    if d1.isDigit ∧ d2.isDigit ∧ m1.isDigit ∧ m2.isDigit ∧ y1.isDigit ∧ y2.isDigit then
      decide (1 ≤ 10 * digitVal m1 + digitVal m2) &&
        decide (10 * digitVal m1 + digitVal m2 ≤ 12) &&
        decide (1 ≤ 10 * digitVal d1 + digitVal d2) &&
        decide (10 * digitVal d1 + digitVal d2 ≤
          daysInMonth (expandYear (10 * digitVal y1 + digitVal y2))
            (10 * digitVal m1 + digitVal m2))
    else false
  | _ => false

/-- C9 counterexample: the four-character string "1111" is not in fixed
DDMMYY form, yet the date validator accepts it (strptime's %d and %m also
match single digits, so it parses as January 1, 2011) — the validator does
not accept exactly the fixed-DDMMYY strings. -/
theorem C9_date_validator_accepts_non_ddmmyy :
    _validate_date (Val.str "1111") = true ∧ isFixedDDMMYY "1111" = false := by
  decide

/-- C9 amended: the spec's four examples behave as stated — "150923"
(September 15, 2023) is accepted, "310223" (February 31) rejected, "1430"
accepted, "2530" rejected — but the accepted sets are those of Python's
strptime with "%d%m%y" / "%H%M", which are wider than fixed DDMMYY / HHMM:
a falsy (null or empty) value passes, and day, month and hour may be a
single digit, so "1111" and "159" are also accepted. -/
theorem C9_amended_date_time_validation :
    _validate_date (Val.str "150923") = true ∧
      _validate_date (Val.str "310223") = false ∧
      _validate_time (Val.str "1430") = true ∧
      _validate_time (Val.str "2530") = false ∧
      _validate_date (Val.str "") = true ∧
      _validate_date Val.null = true ∧
      _validate_date (Val.str "1111") = true ∧
      _validate_time (Val.str "159") = true := by
  decide

example : strptime_ddmmyy "150923" = true := by decide
example : strptime_ddmmyy "310223" = false := by decide
example : strptime_ddmmyy "1111" = true := by decide
example : strptime_hhmm "1430" = true := by decide
example : strptime_hhmm "2530" = false := by decide
example : validate_params "liveboard" [("station", Val.str "Gent")] = true := by decide
example : validate_params "liveboard" [("station", Val.str "Gent"), ("id", Val.str "8")] = false := by
  decide
example : validate_params "liveboard" [] = false := by decide

end PyRail
